import Mathlib

/-!
# liblights (acer/a4/liblights/lights.c)

A shallow embedding of the lights HAL module.  The C code is stateful: it reads
and writes file-scope globals, the C library's `errno`, and talks to the
operating system.  Here every function takes the current `World` and returns its
C return value together with the new `World`.

* Integers: `state->color` is an `unsigned int`; it is a `Nat` here.  All
  arithmetic the code does on it is on the masked 24-bit value, whose results
  are below `2^16`, so no `int` operation can overflow.
* The operating system is an oracle: the caller of a function supplies, for each
  system call the function makes, what the system answers (`SysResult`).
* Everything observable that the code does is appended to `World.trace`.
* `pthread_mutex_lock/unlock` are recorded as trace events; execution is
  sequential.
-/

namespace Lights

/-! ## Data model -/

/-- One argument of a log call. -/
inductive LogArg where
  | str (s : String)
  | num (i : Int)
  deriving DecidableEq, Repr

/-- The observable actions of the module, in the order they happen. -/
inductive Event where
  /-- Entry into `write_int(path, value)`. -/
  | call_write_int (path : String) (value : Int)
  /-- The call `open(path, O_RDWR)` and what it returned. -/
  | sys_open (path : String) (ret : Int)
  /-- The call `write(fd, buffer, bytes)` and what it returned. -/
  | sys_write (fd : Int) (buffer : String) (bytes : Nat) (ret : Int)
  /-- The call `close(fd)` and what it returned. -/
  | sys_close (fd : Int) (ret : Int)
  /-- A call of the logging macro `LOGE(fmt, args...)`. -/
  | loge (fmt : String) (args : List LogArg)
  /-- The call `pthread_mutex_lock(&g_lock)`. -/
  | lock
  /-- The call `pthread_mutex_unlock(&g_lock)`. -/
  | unlock
  /-- The call `handle_trackball_light_locked(dev)`. -/
  | call_trackball (dev : Nat)
  deriving DecidableEq, Repr

/-- The file-scope state of lights.c, the C library's `errno`, and the trace of
what has been done so far. -/
structure World where
  /-- The C library's `errno`. -/
  errno : Int
  /-- The `static int already_warned` of `write_int`. -/
  already_warned : Int
  g_haveTrackballLight : Int
  g_backlight : Int
  g_trackball : Int
  g_buttons : Int
  g_attention : Int
  g_haveAmberLed : Int
  trace : List Event
  deriving DecidableEq, Repr

/-- The state at process start: the static initialisers of lights.c, `errno`
zero, nothing done yet. -/
def World.init : World where
  errno := 0
  already_warned := 0
  g_haveTrackballLight := 0
  g_backlight := 255
  g_trackball := -1
  g_buttons := 0
  g_attention := 0
  g_haveAmberLed := 0
  trace := []

/-- Append one event to the trace. -/
def World.emit (w : World) (e : Event) : World :=
  { w with trace := w.trace ++ [e] }

/-- What the system answers to one call: the return value, and the value the
call stores in `errno` (`none` when it leaves `errno` alone). -/
structure SysResult where
  ret : Int
  err : Option Int
  deriving DecidableEq, Repr

/-- Store into `errno` what a call left there. -/
def World.set_errno (w : World) (e : Option Int) : World :=
  match e with
  | none => w
  | some v => { w with errno := v }

/-- The answers of the system during one call of `write_int`: to `open`, to
`write`, to `close`, and the value the logging call leaves in `errno` (logging
itself opens and writes the log device). -/
structure Outcome where
  open_res : SysResult
  write_res : SysResult
  close_res : SysResult
  log_err : Option Int
  deriving DecidableEq, Repr

/-- A failing call returns -1 and stores a positive error code in `errno`. -/
def SysResult.fails (r : SysResult) : Prop :=
  r.ret = -1 ∧ ∃ e, r.err = some e ∧ 0 < e

/-- A succeeding call returns a non-negative value and leaves `errno` alone. -/
def SysResult.succeeds (r : SysResult) : Prop :=
  0 ≤ r.ret ∧ r.err = none

/-- The outcomes an operating system can really give: every call either fails
or succeeds, and logging leaves `errno` alone or stores a positive code. -/
def Outcome.wf (o : Outcome) : Prop :=
  (o.open_res.fails ∨ o.open_res.succeeds) ∧
  (o.write_res.fails ∨ o.write_res.succeeds) ∧
  (o.close_res.fails ∨ (o.close_res.ret = 0 ∧ o.close_res.err = none)) ∧
  (∀ e, o.log_err = some e → 0 < e)

/-- The type `struct light_state_t`, with the fields lights.c reads. -/
structure light_state_t where
  /-- The field `unsigned int color`, packed ARGB. -/
  color : Nat
  flashMode : Int
  flashOnMS : Int
  flashOffMS : Int
  deriving DecidableEq, Repr

/-! ## Paths -/

def LCD_FILE : String := "/sys/class/leds/lcd-backlight/brightness"

def POWER_LED_FILE : String := "/sys/class/leds/battery/blink"

def MAIL_LED_FILE : String := "/sys/class/leds/mail/blink"

def CALL_LED_FILE : String := "/sys/class/leds/call/blink"

def BUTTON_FILE : String := "/sys/class/leds/button-backlight/brightness"

/-! ## System calls and logging -/

/-- The system call `open(path, O_RDWR)`. -/
def sys_open (path : String) (r : SysResult) (w : World) : Int × World :=
  (r.ret, (w.set_errno r.err).emit (.sys_open path r.ret))

/-- The system call `write(fd, buffer, bytes)`. -/
def sys_write (fd : Int) (buffer : String) (bytes : Nat) (r : SysResult) (w : World) :
    Int × World :=
  (r.ret, (w.set_errno r.err).emit (.sys_write fd buffer bytes r.ret))

/-- The system call `close(fd)`. -/
def sys_close (fd : Int) (r : SysResult) (w : World) : Int × World :=
  (r.ret, (w.set_errno r.err).emit (.sys_close fd r.ret))

/-- The logging call `LOGE(fmt, args...)`. -/
def LOGE (fmt : String) (args : List LogArg) (e : Option Int) (w : World) : World :=
  (w.set_errno e).emit (.loge fmt args)

/-- The text `sprintf(buffer, "%d\n", value)` leaves in the buffer. -/
def sprintf_d (value : Int) : String :=
  toString value ++ "\n"

/-! ## lights.c -/

/-- The function `write_int`, lines 62-82. -/
def write_int (path : String) (value : Int) (o : Outcome) (w : World) : Int × World :=
  let w := w.emit (.call_write_int path value)
  let (fd, w) := sys_open path o.open_res w
  if fd ≥ 0 then
    let buffer := sprintf_d value
    let bytes := buffer.length
    let (amt, w) := sys_write fd buffer bytes o.write_res w
    let (_, w) := sys_close fd o.close_res w
    (if amt = -1 then -w.errno else 0, w)
  else
    let w :=
      if w.already_warned = 0 then
        { LOGE "write_int failed to open %s\n" [.str path] o.log_err w with
          already_warned := 1 }
      else w
    (-w.errno, w)

/-- The function `is_lit`, lines 84-86. -/
def is_lit (state : light_state_t) : Int :=
  ((state.color &&& 0x00ffffff : Nat) : Int)

/-- The function `rgb_to_brightness`, lines 88-94. -/
def rgb_to_brightness (state : light_state_t) : Int :=
  let color : Nat := state.color &&& 0x00ffffff
  (((77 * ((color >>> 16) &&& 0x00ff)
    + 150 * ((color >>> 8) &&& 0x00ff) + 29 * (color &&& 0x00ff)) >>> 8 : Nat) : Int)

/-- The constants lights.c takes from the platform headers `hardware/lights.h`,
`hardware/hardware.h` and `errno.h`, which are not part of the module. -/
structure Headers where
  LIGHT_FLASH_TIMED : Int
  EINVAL : Int
  HARDWARE_DEVICE_TAG : Nat
  LIGHT_ID_BACKLIGHT : String
  LIGHT_ID_BUTTONS : String
  LIGHT_ID_BATTERY : String
  LIGHT_ID_NOTIFICATIONS : String
  deriving DecidableEq, Repr

/-- Modelled from the spec: the values of the header constants, which are not
under src/.  The four identifiers are the "recognized light identifiers (exact
string match): backlight, buttons, battery, notifications" of the external
interface; the numbers are those of the Android and Linux headers. -/
def android : Headers where
  LIGHT_FLASH_TIMED := 1
  EINVAL := 22
  HARDWARE_DEVICE_TAG := 0x48574454
  LIGHT_ID_BACKLIGHT := "backlight"
  LIGHT_ID_BUTTONS := "buttons"
  LIGHT_ID_BATTERY := "battery"
  LIGHT_ID_NOTIFICATIONS := "notifications"

/-- The function `set_light_backlight`, lines 96-110.  `handle_trackball_light_locked` is not
defined in lights.c; its effect on the state is the parameter `hook`. -/
def set_light_backlight (hook : Nat → World → World) (dev : Nat)
    (state : light_state_t) (o : Outcome) (w : World) : Int × World :=
  let brightness := rgb_to_brightness state
  let w := w.emit .lock
  let w := { w with g_backlight := brightness }
  let (err, w) := write_int LCD_FILE brightness o w
  let w :=
    if w.g_haveTrackballLight ≠ 0 then
      hook dev (w.emit (.call_trackball dev))
    else w
  let w := w.emit .unlock
  (err, w)

/-- The function `set_light_battery`, lines 112-138.  `l` is what the final `LOGE` leaves in
`errno`. -/
def set_light_battery (H : Headers) (_dev : Nat) (state : light_state_t)
    (o : Outcome) (l : Option Int) (w : World) : Int × World :=
  let w :=
    if state.color = 0xFFFF0000 then
      if state.flashMode = H.LIGHT_FLASH_TIMED then
        (write_int POWER_LED_FILE 3 o w).2
      else
        (write_int POWER_LED_FILE 2 o w).2
    else if state.color = 0xFF00FF00 then
      (write_int POWER_LED_FILE 1 o w).2
    else if state.color = 0xFFFFFF00 then
      (write_int POWER_LED_FILE 2 o w).2
    else
      (write_int POWER_LED_FILE 0 o w).2
  let w := LOGE "Light battery: %p\n" [.num state.color] l w
  (0, w)

/-- The function `set_light_notifications`, lines 141-154.  `l` is what the final `LOGE`
leaves in `errno`. -/
def set_light_notifications (_dev : Nat) (state : light_state_t)
    (o : Outcome) (l : Option Int) (w : World) : Int × World :=
  let w :=
    if state.color = 0xFFFFFFFF then
      (write_int MAIL_LED_FILE 3 o w).2
    else
      (write_int MAIL_LED_FILE 0 o w).2
  let w := LOGE "Notification led: %p(%d,%d,%d)\n"
    [.num state.color, .num state.flashMode, .num state.flashOnMS, .num state.flashOffMS] l w
  (0, w)

/-- The function `set_light_buttons`, lines 156-167. -/
def set_light_buttons (_dev : Nat) (state : light_state_t) (o : Outcome) (w : World) :
    Int × World :=
  let on_ := is_lit state
  let w := w.emit .lock
  let w := { w with g_buttons := on_ }
  let (err, w) := write_int BUTTON_FILE (if on_ ≠ 0 then 16 else 0) o w
  let w := w.emit .unlock
  (err, w)

/-! ## Opening a device -/

/-- The four functions a device's `set_light` pointer can point to. -/
inductive Handler where
  | set_light_backlight
  | set_light_buttons
  | set_light_battery
  | set_light_notifications
  deriving DecidableEq, Repr

/-- The type `struct light_device_t`: the fields of `common` that lights.c sets, and
`set_light`.  A null function pointer is `none`. -/
structure light_device_t where
  tag : Nat
  version : Nat
  module : Nat
  close : Bool
  set_light : Option Handler
  deriving DecidableEq, Repr

/-- The block `memset(dev, 0, sizeof( *dev))` leaves. -/
def light_device_t.zero : light_device_t where
  tag := 0
  version := 0
  module := 0
  close := false
  set_light := none

/-- The memory `open_lights` works on: the caller's slot `*device` (an address)
and the allocated device blocks by address. -/
structure Memory where
  device : Nat
  heap : List (Nat × light_device_t)
  deriving DecidableEq, Repr

/-- Compare two character sequences from the front: zero when they are the same,
otherwise the sign of the first difference (a sequence that ends first is the
smaller one). -/
def strcmp_chars : List Char → List Char → Int
  | [], [] => 0
  | [], _ :: _ => -1
  | _ :: _, [] => 1
  | a :: as, b :: bs =>
    if a = b then strcmp_chars as bs else if a.toNat < b.toNat then -1 else 1

/-- The function `strcmp` of the C library, on the contents of two C strings (the characters
before the terminating NUL). -/
def strcmp (a b : String) : Int :=
  strcmp_chars a.data b.data

/-- The function `open_lights`, lines 186-214.  `alloc` is what `malloc` returns: `none` for
NULL, otherwise the address of a fresh block.  The result is `none` where the C
code has no defined behaviour (it passes a NULL block to `memset`). -/
def open_lights (H : Headers) (module : Nat) (name : String) (alloc : Option Nat)
    (m : Memory) : Option (Int × Memory) :=
  let set_light : Option Handler :=
    if 0 = strcmp H.LIGHT_ID_BACKLIGHT name then
      some .set_light_backlight
    else if 0 = strcmp H.LIGHT_ID_BUTTONS name then
      some .set_light_buttons
    else if 0 = strcmp H.LIGHT_ID_BATTERY name then
      some .set_light_battery
    else if 0 = strcmp H.LIGHT_ID_NOTIFICATIONS name then
      some .set_light_notifications
    else
      none
  match set_light with
  | none => some (-H.EINVAL, m)
  | some set_light =>
    match alloc with
    | none => none
    | some p =>
      let dev := light_device_t.zero
      let dev := { dev with tag := H.HARDWARE_DEVICE_TAG }
      let dev := { dev with version := 0 }
      let dev := { dev with module := module }
      let dev := { dev with close := true }
      let dev := { dev with set_light := some set_light }
      some (0, { device := p, heap := (p, dev) :: m.heap })

/-- A sequence of `write_int` calls: each with its path, its value and what the
system answers during it. -/
structure Call where
  path : String
  value : Int
  outcome : Outcome
  deriving DecidableEq, Repr

/-- Run the calls one after the other. -/
def write_ints : List Call → World → World
  | [], w => w
  | c :: cs, w => write_ints cs (write_int c.path c.value c.outcome w).2

/-- The path an event warns about, when the event is the open-failure warning of
`write_int`. -/
def warned_path : Event → Option String
  | .loge fmt [.str p] => if fmt = "write_int failed to open %s\n" then some p else none
  | _ => none

/-- The paths named by the open-failure warnings of `write_int` in a trace. -/
def warnings (es : List Event) : List String :=
  es.filterMap warned_path

/-- The `write_int` calls in a trace: path and value of each. -/
def writes : List Event → List (String × Int)
  | [] => []
  | .call_write_int p v :: es => (p, v) :: writes es
  | _ :: es => writes es

/-- The data handed to the system's `write` in a trace: descriptor, buffer and
byte count of each call. -/
def written : List Event → List (Int × String × Nat)
  | [] => []
  | .sys_write fd b n _ :: es => (fd, b, n) :: written es
  | _ :: es => written es

/-- The paths passed to `open` in a trace. -/
def opened : List Event → List String
  | [] => []
  | .sys_open p _ :: es => p :: opened es
  | _ :: es => opened es

/-- The `open` of this call fails. -/
def Call.open_fails (c : Call) : Bool :=
  decide (c.outcome.open_res.ret < 0)

/-- The trackball updates in a trace: the device of each call. -/
def trackball_calls : List Event → List Nat
  | [] => []
  | .call_trackball d :: es => d :: trackball_calls es
  | _ :: es => trackball_calls es

/-- The events of one `write_int` call, given the value of `already_warned` at
its start. -/
def write_int_events (path : String) (value : Int) (o : Outcome) (warned : Int) :
    List Event :=
  if 0 ≤ o.open_res.ret then
    [.call_write_int path value, .sys_open path o.open_res.ret,
      .sys_write o.open_res.ret (sprintf_d value) (sprintf_d value).length o.write_res.ret,
      .sys_close o.open_res.ret o.close_res.ret]
  else if warned = 0 then
    [.call_write_int path value, .sys_open path o.open_res.ret,
      .loge "write_int failed to open %s\n" [.str path]]
  else
    [.call_write_int path value, .sys_open path o.open_res.ret]

/-- Going from `w` to `w2` the module has called `write_int` exactly once, with
`path` and `value`: it has opened `path` and nothing else, and when that open
succeeded it has handed the decimal text of `value` followed by a newline to
`write`, once, on the descriptor `open` returned. -/
def one_write (path : String) (value : Int) (o : Outcome) (w w2 : World) : Prop :=
  ∃ evs, w2.trace = w.trace ++ evs ∧
    writes evs = [(path, value)] ∧
    opened evs = [path] ∧
    written evs =
      if 0 ≤ o.open_res.ret then
        [(o.open_res.ret, toString value ++ "\n", (toString value ++ "\n").length)]
      else []

/-! ## What one call of `write_int` does -/

@[simp] theorem set_errno_trace (w : World) (e : Option Int) :
    (w.set_errno e).trace = w.trace := by
  cases e <;> rfl

@[simp] theorem set_errno_already_warned (w : World) (e : Option Int) :
    (w.set_errno e).already_warned = w.already_warned := by
  cases e <;> rfl

@[simp] theorem set_errno_g_backlight (w : World) (e : Option Int) :
    (w.set_errno e).g_backlight = w.g_backlight := by
  cases e <;> rfl

@[simp] theorem set_errno_g_buttons (w : World) (e : Option Int) :
    (w.set_errno e).g_buttons = w.g_buttons := by
  cases e <;> rfl

@[simp] theorem set_errno_g_haveTrackballLight (w : World) (e : Option Int) :
    (w.set_errno e).g_haveTrackballLight = w.g_haveTrackballLight := by
  cases e <;> rfl

theorem write_int_trace (path : String) (value : Int) (o : Outcome) (w : World) :
    (write_int path value o w).2.trace =
      w.trace ++ write_int_events path value o w.already_warned := by
  unfold write_int write_int_events sys_open sys_write sys_close LOGE World.emit
  by_cases h : 0 ≤ o.open_res.ret
  · simp [h]
  · by_cases h2 : w.already_warned = 0
    · simp [h, h2]
    · simp [h, h2]

theorem write_int_already_warned (path : String) (value : Int) (o : Outcome) (w : World) :
    (write_int path value o w).2.already_warned =
      if o.open_res.ret < 0 ∧ w.already_warned = 0 then 1 else w.already_warned := by
  unfold write_int sys_open sys_write sys_close LOGE World.emit
  by_cases h : 0 ≤ o.open_res.ret
  · have h3 : ¬ o.open_res.ret < 0 := by omega
    simp [h, h3]
  · have h3 : o.open_res.ret < 0 := by omega
    by_cases h2 : w.already_warned = 0
    · simp [h, h2, h3]
    · simp [h, h2, h3]

theorem write_int_globals (path : String) (value : Int) (o : Outcome) (w : World) :
    (write_int path value o w).2.g_backlight = w.g_backlight ∧
    (write_int path value o w).2.g_buttons = w.g_buttons ∧
    (write_int path value o w).2.g_haveTrackballLight = w.g_haveTrackballLight := by
  unfold write_int sys_open sys_write sys_close LOGE World.emit
  by_cases h : 0 ≤ o.open_res.ret
  · simp [h]
  · by_cases h2 : w.already_warned = 0
    · simp [h, h2]
    · simp [h, h2]

/-- The result code of `write_int` depends on the state only through `errno`
and `already_warned`. -/
theorem write_int_ret_congr (path : String) (value : Int) (o : Outcome) (w v : World)
    (he : w.errno = v.errno) (ha : w.already_warned = v.already_warned) :
    (write_int path value o w).1 = (write_int path value o v).1 := by
  unfold write_int sys_open sys_write sys_close LOGE World.emit World.set_errno
  by_cases h : 0 ≤ o.open_res.ret
  · cases ho : o.open_res.err <;> cases hw : o.write_res.err <;>
      cases hc : o.close_res.err <;> simp [h, he]
  · by_cases h2 : v.already_warned = 0
    · cases ho : o.open_res.err <;> cases hl : o.log_err <;> simp [h, h2, ha, he]
    · cases ho : o.open_res.err <;> simp [h, h2, ha, he]

theorem write_int_one_write (path : String) (value : Int) (o : Outcome) (w : World) :
    one_write path value o w (write_int path value o w).2 := by
  refine ⟨write_int_events path value o w.already_warned, write_int_trace path value o w, ?_⟩
  unfold write_int_events
  by_cases h : 0 ≤ o.open_res.ret
  · simp [h, writes, opened, written, sprintf_d]
  · by_cases h2 : w.already_warned = 0
    · simp [h, h2, writes, opened, written]
    · simp [h, h2, writes, opened, written]

theorem writes_append (a b : List Event) : writes (a ++ b) = writes a ++ writes b := by
  induction a with
  | nil => rfl
  | cons e a ih => cases e <;> simp [writes, ih]

theorem opened_append (a b : List Event) : opened (a ++ b) = opened a ++ opened b := by
  induction a with
  | nil => rfl
  | cons e a ih => cases e <;> simp [opened, ih]

theorem written_append (a b : List Event) : written (a ++ b) = written a ++ written b := by
  induction a with
  | nil => rfl
  | cons e a ih => cases e <;> simp [written, ih]

/-- A trailing log call adds no write. -/
theorem one_write_then_log (path : String) (value : Int) (o : Outcome) (w w2 : World)
    (fmt : String) (args : List LogArg) (l : Option Int) (h : one_write path value o w w2) :
    one_write path value o w (LOGE fmt args l w2) := by
  obtain ⟨evs, h1, h2, h3, h4⟩ := h
  refine ⟨evs ++ [.loge fmt args], ?_, ?_, ?_, ?_⟩
  · simp [LOGE, World.emit, h1]
  · simp [writes_append, h2, writes]
  · simp [opened_append, h3, opened]
  · simp [written_append, h4, written]

/-- Taking the lock before adds no write. -/
theorem one_write_after_lock (path : String) (value : Int) (o : Outcome) (w w1 w2 : World)
    (h1 : w1.trace = w.trace ++ [.lock]) (h : one_write path value o w1 w2) :
    one_write path value o w w2 := by
  obtain ⟨evs, e1, e2, e3, e4⟩ := h
  refine ⟨.lock :: evs, ?_, ?_, ?_, ?_⟩
  · simp [e1, h1]
  · simpa [writes] using e2
  · simpa [opened] using e3
  · simpa [written] using e4

/-- Releasing the lock afterwards adds no write. -/
theorem one_write_then_unlock (path : String) (value : Int) (o : Outcome) (w w2 : World)
    (h : one_write path value o w w2) : one_write path value o w (w2.emit .unlock) := by
  obtain ⟨evs, h1, h2, h3, h4⟩ := h
  refine ⟨evs ++ [.unlock], ?_, ?_, ?_, ?_⟩
  · simp [World.emit, h1]
  · simp [writes_append, h2, writes]
  · simp [opened_append, h3, opened]
  · simp [written_append, h4, written]

theorem trackball_calls_append (a b : List Event) :
    trackball_calls (a ++ b) = trackball_calls a ++ trackball_calls b := by
  induction a with
  | nil => rfl
  | cons e a ih => cases e <;> simp [trackball_calls, ih]

theorem write_int_events_no_trackball (path : String) (value : Int) (o : Outcome)
    (warned : Int) : trackball_calls (write_int_events path value o warned) = [] := by
  unfold write_int_events
  split_ifs <;> simp [trackball_calls]

/-! ## String comparison -/

theorem strcmp_chars_eq_zero (a b : List Char) : strcmp_chars a b = 0 ↔ a = b := by
  induction a generalizing b with
  | nil => cases b <;> simp [strcmp_chars]
  | cons x xs ih =>
    cases b with
    | nil => simp [strcmp_chars]
    | cons y ys =>
      by_cases h : x = y
      · simp [strcmp_chars, h, ih]
      · by_cases h2 : x.toNat < y.toNat <;> simp [strcmp_chars, h, h2]

theorem strcmp_eq_zero (a b : String) : 0 = strcmp a b ↔ a = b := by
  rw [eq_comm, strcmp, strcmp_chars_eq_zero]
  exact ⟨fun h => String.ext h, fun h => by rw [h]⟩

/-! ## Sequences of `write_int` calls -/

theorem warnings_append (a b : List Event) : warnings (a ++ b) = warnings a ++ warnings b :=
  List.filterMap_append a b warned_path

theorem warnings_write_int_events (path : String) (value : Int) (o : Outcome) (warned : Int) :
    warnings (write_int_events path value o warned) =
      if o.open_res.ret < 0 ∧ warned = 0 then [path] else [] := by
  unfold write_int_events
  by_cases h : 0 ≤ o.open_res.ret
  · have h3 : ¬ o.open_res.ret < 0 := by omega
    simp [h, h3, warnings, warned_path]
  · have h3 : o.open_res.ret < 0 := by omega
    by_cases h2 : warned = 0 <;> simp [h, h2, h3, warnings, warned_path]

theorem write_ints_append (xs ys : List Call) (w : World) :
    write_ints (xs ++ ys) w = write_ints ys (write_ints xs w) := by
  induction xs generalizing w with
  | nil => rfl
  | cons c cs ih => simp [write_ints, ih]

/-- After any calls from the start the flag is 1 when some open has failed and 0
otherwise, and the warnings so far are at most the path of the first failure. -/
theorem write_ints_state (cs : List Call) :
    (write_ints cs World.init).already_warned
        = (if cs.any Call.open_fails then 1 else 0) ∧
    warnings (write_ints cs World.init).trace
        = ((cs.find? Call.open_fails).map Call.path).toList := by
  induction cs using List.reverseRecOn with
  | nil => simp [write_ints, World.init, warnings]
  | append_singleton cs c ih =>
    obtain ⟨ih1, ih2⟩ := ih
    rw [write_ints_append]
    simp only [write_ints]
    rw [write_int_already_warned, write_int_trace, warnings_append, ih1, ih2,
      warnings_write_int_events]
    by_cases hany : cs.any Call.open_fails = true
    · obtain ⟨d, hd⟩ : ∃ d, cs.find? Call.open_fails = some d := by
        cases hf : cs.find? Call.open_fails with
        | some d => exact ⟨d, rfl⟩
        | none =>
          rw [List.find?_eq_none] at hf
          rw [List.any_eq_true] at hany
          obtain ⟨x, hx, hx2⟩ := hany
          exact absurd hx2 (hf x hx)
      simp [hany, List.find?_append, hd]
    · have hnone : cs.find? Call.open_fails = none := by
        rw [List.find?_eq_none]
        intro x hx hx2
        exact hany (List.any_eq_true.mpr ⟨x, hx, hx2⟩)
      by_cases hc : c.outcome.open_res.ret < 0
      · have hcf : c.open_fails = true := by simp [Call.open_fails, hc]
        simp [hany, hnone, List.find?_append, hc, hcf]
      · have hcf : c.open_fails = false := by simp [Call.open_fails, hc]
        simp [hany, hnone, List.find?_append, hc, hcf]

/-! ## Arithmetic of the colour word -/

theorem mask24 (c : Nat) : c &&& 0x00ffffff = c % 2 ^ 24 :=
  Nat.and_pow_two_sub_one_eq_mod c 24

theorem mask8 (c : Nat) : c &&& 0x00ff = c % 2 ^ 8 :=
  Nat.and_pow_two_sub_one_eq_mod c 8

/-- The brightness in terms of division and remainder of the masked colour. -/
theorem rgb_to_brightness_div (st : light_state_t) :
    rgb_to_brightness st =
      (((77 * (st.color % 2 ^ 24 / 2 ^ 16 % 2 ^ 8)
        + 150 * (st.color % 2 ^ 24 / 2 ^ 8 % 2 ^ 8)
        + 29 * (st.color % 2 ^ 24 % 2 ^ 8)) / 2 ^ 8 : Nat) : Int) := by
  simp only [rgb_to_brightness, mask24, mask8, Nat.shiftRight_eq_div_pow]

theorem is_lit_mod (st : light_state_t) : is_lit st = ((st.color % 2 ^ 24 : Nat) : Int) := by
  simp only [is_lit, mask24]

/-- Brightness of a colour whose low 24 bits are all set. -/
theorem rgb_to_brightness_white (st : light_state_t) (h : st.color % 2 ^ 24 = 0xFFFFFF) :
    rgb_to_brightness st = 255 := by
  rw [rgb_to_brightness_div, h]; rfl

/-- Brightness of a colour whose low 24 bits are all clear. -/
theorem rgb_to_brightness_black (st : light_state_t) (h : st.color % 2 ^ 24 = 0) :
    rgb_to_brightness st = 0 := by
  rw [rgb_to_brightness_div, h]; rfl

/-! ## Claims about the brightness -/

/-- C1: for every colour word the result of `rgb_to_brightness` is
`(77*R + 150*G + 29*B) >> 8`, the floor of that sum divided by 256, with
`R = (C>>16)&0xFF`, `G = (C>>8)&0xFF`, `B = C&0xFF` taken from the colour word
itself; so two colours that agree on their low 24 bits get the same result. -/
theorem rgb_to_brightness_spec :
    (∀ st : light_state_t,
      rgb_to_brightness st =
        (((77 * ((st.color >>> 16) &&& 0xFF) + 150 * ((st.color >>> 8) &&& 0xFF)
          + 29 * (st.color &&& 0xFF)) >>> 8 : Nat) : Int) ∧
      rgb_to_brightness st =
        (((77 * ((st.color >>> 16) &&& 0xFF) + 150 * ((st.color >>> 8) &&& 0xFF)
          + 29 * (st.color &&& 0xFF)) / 256 : Nat) : Int)) ∧
    (∀ s t : light_state_t, s.color % 2 ^ 24 = t.color % 2 ^ 24 →
      rgb_to_brightness s = rgb_to_brightness t) := by
  refine ⟨fun st => ?_, fun s t h => ?_⟩
  · have hR : st.color % 2 ^ 24 / 2 ^ 16 % 2 ^ 8 = st.color / 2 ^ 16 % 2 ^ 8 := by omega
    have hG : st.color % 2 ^ 24 / 2 ^ 8 % 2 ^ 8 = st.color / 2 ^ 8 % 2 ^ 8 := by omega
    have hB : st.color % 2 ^ 24 % 2 ^ 8 = st.color % 2 ^ 8 := by omega
    have e8 : (0xFF : Nat) = 2 ^ 8 - 1 := by norm_num
    simp only [rgb_to_brightness_div, hR, hG, hB, e8, Nat.and_pow_two_sub_one_eq_mod,
      Nat.shiftRight_eq_div_pow]
    norm_num
  · simp only [rgb_to_brightness_div, h]

/-- Witness of C1: opaque and transparent 0x123456 have the same brightness. -/
theorem rgb_to_brightness_spec_witness :
    rgb_to_brightness ⟨0xFF123456, 0, 0, 0⟩ = rgb_to_brightness ⟨0x00123456, 1, 2, 3⟩ :=
  rgb_to_brightness_spec.2 ⟨0xFF123456, 0, 0, 0⟩ ⟨0x00123456, 1, 2, 3⟩ (by decide)

/-- C9: for every colour word `rgb_to_brightness` is between 0 and 255; it is 0
when the low 24 bits are zero and 255 when they are 0xFFFFFF. -/
theorem rgb_to_brightness_range (st : light_state_t) :
    (0 ≤ rgb_to_brightness st ∧ rgb_to_brightness st ≤ 255) ∧
    (st.color % 2 ^ 24 = 0 → rgb_to_brightness st = 0) ∧
    (st.color % 2 ^ 24 = 0xFFFFFF → rgb_to_brightness st = 255) := by
  refine ⟨?_, rgb_to_brightness_black st, rgb_to_brightness_white st⟩
  rw [rgb_to_brightness_div]
  refine ⟨by positivity, ?_⟩
  have : (77 * (st.color % 2 ^ 24 / 2 ^ 16 % 2 ^ 8)
      + 150 * (st.color % 2 ^ 24 / 2 ^ 8 % 2 ^ 8)
      + 29 * (st.color % 2 ^ 24 % 2 ^ 8)) / 2 ^ 8 ≤ 255 := by omega
  exact_mod_cast this

/-- Witness of C9: the two bounds are attained, whatever the alpha byte. -/
theorem rgb_to_brightness_range_witness :
    rgb_to_brightness ⟨0xFF000000, 0, 0, 0⟩ = 0 ∧
    rgb_to_brightness ⟨0x80FFFFFF, 0, 0, 0⟩ = 255 :=
  ⟨(rgb_to_brightness_range ⟨0xFF000000, 0, 0, 0⟩).2.1 (by decide),
   (rgb_to_brightness_range ⟨0x80FFFFFF, 0, 0, 0⟩).2.2 (by decide)⟩

/-! ## Claims about the handlers -/

/-- C2: for every light state `set_light_battery` does exactly one write, to
/sys/class/leds/battery/blink, of 3 for colour 0xFFFF0000 with timed flashing,
2 for colour 0xFFFF0000 otherwise, 1 for 0xFF00FF00, 2 for 0xFFFFFF00, and 0 for
every other colour word. -/
theorem set_light_battery_table (H : Headers) (dev : Nat) (st : light_state_t)
    (o : Outcome) (l : Option Int) (w : World) :
    POWER_LED_FILE = "/sys/class/leds/battery/blink" ∧
    (st.color = 0xFFFF0000 ∧ st.flashMode = H.LIGHT_FLASH_TIMED →
      one_write POWER_LED_FILE 3 o w (set_light_battery H dev st o l w).2) ∧
    (st.color = 0xFFFF0000 ∧ st.flashMode ≠ H.LIGHT_FLASH_TIMED →
      one_write POWER_LED_FILE 2 o w (set_light_battery H dev st o l w).2) ∧
    (st.color = 0xFF00FF00 →
      one_write POWER_LED_FILE 1 o w (set_light_battery H dev st o l w).2) ∧
    (st.color = 0xFFFFFF00 →
      one_write POWER_LED_FILE 2 o w (set_light_battery H dev st o l w).2) ∧
    (st.color ≠ 0xFFFF0000 ∧ st.color ≠ 0xFF00FF00 ∧ st.color ≠ 0xFFFFFF00 →
      one_write POWER_LED_FILE 0 o w (set_light_battery H dev st o l w).2) := by
  refine ⟨rfl, ?_, ?_, ?_, ?_, ?_⟩
  · rintro ⟨hc, hf⟩
    simp only [set_light_battery, hc, hf, if_true]
    exact one_write_then_log _ _ _ _ _ _ _ _ (write_int_one_write _ _ _ _)
  · rintro ⟨hc, hf⟩
    simp only [set_light_battery, hc, hf, if_true, if_false]
    exact one_write_then_log _ _ _ _ _ _ _ _ (write_int_one_write _ _ _ _)
  · intro hc
    have h1 : ¬ ((0xFF00FF00 : Nat) = 0xFFFF0000) := by decide
    simp only [set_light_battery, hc, h1, if_true, if_false]
    exact one_write_then_log _ _ _ _ _ _ _ _ (write_int_one_write _ _ _ _)
  · intro hc
    have h1 : ¬ ((0xFFFFFF00 : Nat) = 0xFFFF0000) := by decide
    have h2 : ¬ ((0xFFFFFF00 : Nat) = 0xFF00FF00) := by decide
    simp only [set_light_battery, hc, h1, h2, if_true, if_false]
    exact one_write_then_log _ _ _ _ _ _ _ _ (write_int_one_write _ _ _ _)
  · rintro ⟨h1, h2, h3⟩
    simp only [set_light_battery, h1, h2, h3, if_false]
    exact one_write_then_log _ _ _ _ _ _ _ _ (write_int_one_write _ _ _ _)

/-- Witness of C2: red with a zero alpha byte is not the red sentinel, so 0 is
written. -/
theorem set_light_battery_table_witness :
    one_write POWER_LED_FILE 0 ⟨⟨3, none⟩, ⟨2, none⟩, ⟨0, none⟩, none⟩ World.init
      (set_light_battery android 0 ⟨0x00FF0000, 1, 500, 500⟩
        ⟨⟨3, none⟩, ⟨2, none⟩, ⟨0, none⟩, none⟩ none World.init).2 :=
  (set_light_battery_table android 0 ⟨0x00FF0000, 1, 500, 500⟩
    ⟨⟨3, none⟩, ⟨2, none⟩, ⟨0, none⟩, none⟩ none World.init).2.2.2.2.2
    (by decide)

/-- C5: for every light state and every outcome of the underlying write,
`set_light_battery` and `set_light_notifications` return 0. -/
theorem battery_notifications_return_zero (H : Headers) (dev : Nat) (st : light_state_t)
    (o : Outcome) (l : Option Int) (w : World) :
    (set_light_battery H dev st o l w).1 = 0 ∧
    (set_light_notifications dev st o l w).1 = 0 :=
  ⟨rfl, rfl⟩

/-- C7: for every light state `set_light_notifications` does exactly one write,
to /sys/class/leds/mail/blink, of 3 when the colour word is 0xFFFFFFFF and of 0
for every other colour word, whatever the flash fields are. -/
theorem set_light_notifications_table (dev : Nat) (st : light_state_t)
    (o : Outcome) (l : Option Int) (w : World) :
    MAIL_LED_FILE = "/sys/class/leds/mail/blink" ∧
    (st.color = 0xFFFFFFFF →
      one_write MAIL_LED_FILE 3 o w (set_light_notifications dev st o l w).2) ∧
    (st.color ≠ 0xFFFFFFFF →
      one_write MAIL_LED_FILE 0 o w (set_light_notifications dev st o l w).2) := by
  refine ⟨rfl, ?_, ?_⟩
  · intro hc
    simp only [set_light_notifications, hc, if_true]
    exact one_write_then_log _ _ _ _ _ _ _ _ (write_int_one_write _ _ _ _)
  · intro hc
    simp only [set_light_notifications, hc, if_false]
    exact one_write_then_log _ _ _ _ _ _ _ _ (write_int_one_write _ _ _ _)

/-- Witness of C7: white with alpha 0xFE is not the sentinel, so 0 is written. -/
theorem set_light_notifications_table_witness :
    one_write MAIL_LED_FILE 0 ⟨⟨3, none⟩, ⟨2, none⟩, ⟨0, none⟩, none⟩ World.init
      (set_light_notifications 0 ⟨0xFEFFFFFF, 1, 500, 500⟩
        ⟨⟨3, none⟩, ⟨2, none⟩, ⟨0, none⟩, none⟩ none World.init).2 :=
  (set_light_notifications_table 0 ⟨0xFEFFFFFF, 1, 500, 500⟩
    ⟨⟨3, none⟩, ⟨2, none⟩, ⟨0, none⟩, none⟩ none World.init).2.2 (by decide)

/-- C6: for every light state `set_light_buttons` does exactly one write, to
/sys/class/leds/button-backlight/brightness, of 16 when the low 24 bits of the
colour are nonzero and of 0 otherwise; `is_lit` is nonzero exactly in the first
case; the value left in `g_buttons` is nonzero exactly in the first case; and
the handler returns what `write_int` returns for that write. -/
theorem set_light_buttons_spec (dev : Nat) (st : light_state_t) (o : Outcome) (w : World) :
    BUTTON_FILE = "/sys/class/leds/button-backlight/brightness" ∧
    one_write BUTTON_FILE (if st.color % 2 ^ 24 ≠ 0 then 16 else 0) o w
      (set_light_buttons dev st o w).2 ∧
    (is_lit st ≠ 0 ↔ st.color % 2 ^ 24 ≠ 0) ∧
    ((set_light_buttons dev st o w).2.g_buttons ≠ 0 ↔ st.color % 2 ^ 24 ≠ 0) ∧
    (set_light_buttons dev st o w).1 =
      (write_int BUTTON_FILE (if st.color % 2 ^ 24 ≠ 0 then 16 else 0) o w).1 := by
  have hlit : is_lit st ≠ 0 ↔ st.color % 2 ^ 24 ≠ 0 := by
    rw [is_lit_mod]; exact_mod_cast Iff.rfl
  have hv : (if is_lit st ≠ 0 then (16 : Int) else 0)
      = if st.color % 2 ^ 24 ≠ 0 then 16 else 0 := by
    by_cases h : st.color % 2 ^ 24 ≠ 0
    · rw [if_pos h, if_pos (hlit.mpr h)]
    · rw [if_neg h, if_neg (fun h2 => h (hlit.mp h2))]
  refine ⟨rfl, ?_, hlit, ?_, ?_⟩
  · simp only [set_light_buttons, hv]
    apply one_write_then_unlock
    exact one_write_after_lock _ _ _ w _ _ rfl (write_int_one_write _ _ _ _)
  · simp only [set_light_buttons, World.emit, (write_int_globals _ _ _ _).2.1]
    exact hlit
  · simp only [set_light_buttons, hv]
    exact write_int_ret_congr _ _ _ _ _ rfl rfl

/-- Witness of C6: an alpha byte alone does not light the buttons. -/
theorem set_light_buttons_spec_witness :
    ¬ (is_lit ⟨0xFF000000, 0, 0, 0⟩ ≠ 0) ∧ is_lit ⟨0x00000100, 0, 0, 0⟩ ≠ 0 :=
  ⟨fun h => ((set_light_buttons_spec 0 ⟨0xFF000000, 0, 0, 0⟩
      ⟨⟨3, none⟩, ⟨2, none⟩, ⟨0, none⟩, none⟩ World.init).2.2.1.mp h) (by decide),
   (set_light_buttons_spec 0 ⟨0x00000100, 0, 0, 0⟩
      ⟨⟨3, none⟩, ⟨2, none⟩, ⟨0, none⟩, none⟩ World.init).2.2.1.mpr (by decide)⟩

/-- C8: for every light state `set_light_backlight` stores
`rgb_to_brightness(state)` in `g_backlight`, does exactly one write, of that
value, to /sys/class/leds/lcd-backlight/brightness, returns what `write_int`
returns for that write, and then calls the trackball update when
`g_haveTrackballLight` is nonzero and does not call it when it is zero; a colour
with low 24 bits 0xFFFFFF gives the value 255. -/
theorem set_light_backlight_spec (hook : Nat → World → World) (dev : Nat)
    (st : light_state_t) (o : Outcome) (w : World) :
    LCD_FILE = "/sys/class/leds/lcd-backlight/brightness" ∧
    (st.color % 2 ^ 24 = 0xFFFFFF → rgb_to_brightness st = 255) ∧
    (set_light_backlight hook dev st o w).1 =
      (write_int LCD_FILE (rgb_to_brightness st) o w).1 ∧
    ∃ wL : World,
      wL.g_backlight = rgb_to_brightness st ∧
      one_write LCD_FILE (rgb_to_brightness st) o w wL ∧
      (∃ evs, wL.trace = w.trace ++ evs ∧ trackball_calls evs = []) ∧
      (w.g_haveTrackballLight ≠ 0 →
        (set_light_backlight hook dev st o w).2 =
          (hook dev (wL.emit (.call_trackball dev))).emit .unlock) ∧
      (w.g_haveTrackballLight = 0 →
        (set_light_backlight hook dev st o w).2 = wL.emit .unlock) := by
  refine ⟨rfl, rgb_to_brightness_white st, ?_, ?_⟩
  · simp only [set_light_backlight]
    exact write_int_ret_congr _ _ _ _ _ rfl rfl
  · refine ⟨(write_int LCD_FILE (rgb_to_brightness st) o
      { w.emit .lock with g_backlight := rgb_to_brightness st }).2, ?_, ?_, ?_, ?_, ?_⟩
    · rw [(write_int_globals _ _ _ _).1]
    · exact one_write_after_lock _ _ _ w _ _ rfl (write_int_one_write _ _ _ _)
    · refine ⟨.lock :: write_int_events LCD_FILE (rgb_to_brightness st) o w.already_warned,
        ?_, ?_⟩
      · rw [write_int_trace]; simp [World.emit]
      · simp [trackball_calls, write_int_events_no_trackball]
    · intro h
      have h2 : (write_int LCD_FILE (rgb_to_brightness st) o
          { w.emit .lock with g_backlight := rgb_to_brightness st }).2.g_haveTrackballLight
            ≠ 0 := by
        rw [(write_int_globals _ _ _ _).2.2]; exact h
      simp only [set_light_backlight, if_pos h2]
    · intro h
      have h2 : ¬ (write_int LCD_FILE (rgb_to_brightness st) o
          { w.emit .lock with g_backlight := rgb_to_brightness st }).2.g_haveTrackballLight
            ≠ 0 := by
        rw [(write_int_globals _ _ _ _).2.2]; exact fun h3 => h3 h
      simp only [set_light_backlight, if_neg h2]

/-- Witness of C8: white with a zero alpha byte gives brightness 255. -/
theorem set_light_backlight_spec_witness :
    rgb_to_brightness ⟨0x00FFFFFF, 0, 0, 0⟩ = 255 :=
  (set_light_backlight_spec (fun _ w => w) 0 ⟨0x00FFFFFF, 0, 0, 0⟩
    ⟨⟨3, none⟩, ⟨4, none⟩, ⟨0, none⟩, none⟩ World.init).2.1 (by decide)

/-! ## Claims about opening a device and about the writer -/

/-- C3: `open_lights` with a name that is none of the four recognised
identifiers returns `-EINVAL`, whatever `malloc` would have returned, and leaves
the memory as it was: the caller's device slot is unchanged and no device block
has been added. -/
theorem open_lights_unknown (H : Headers) (module : Nat) (name : String)
    (alloc : Option Nat) (m : Memory)
    (h1 : name ≠ H.LIGHT_ID_BACKLIGHT) (h2 : name ≠ H.LIGHT_ID_BUTTONS)
    (h3 : name ≠ H.LIGHT_ID_BATTERY) (h4 : name ≠ H.LIGHT_ID_NOTIFICATIONS) :
    open_lights H module name alloc m = some (-H.EINVAL, m) := by
  have e1 : ¬ (0 = strcmp H.LIGHT_ID_BACKLIGHT name) :=
    fun h => h1 ((strcmp_eq_zero _ _).mp h).symm
  have e2 : ¬ (0 = strcmp H.LIGHT_ID_BUTTONS name) :=
    fun h => h2 ((strcmp_eq_zero _ _).mp h).symm
  have e3 : ¬ (0 = strcmp H.LIGHT_ID_BATTERY name) :=
    fun h => h3 ((strcmp_eq_zero _ _).mp h).symm
  have e4 : ¬ (0 = strcmp H.LIGHT_ID_NOTIFICATIONS name) :=
    fun h => h4 ((strcmp_eq_zero _ _).mp h).symm
  simp only [open_lights, e1, e2, e3, e4, if_false]

/-- Witness of C3: "keyboard" is not one of the four identifiers. -/
theorem open_lights_unknown_witness :
    open_lights android 7 "keyboard" (some 4096) ⟨0, []⟩ = some (-22, ⟨0, []⟩) :=
  open_lights_unknown android 7 "keyboard" (some 4096) ⟨0, []⟩
    (by decide) (by decide) (by decide) (by decide)

/-- What `write_int` returns as long as nothing after the failing call touches
`errno`: 0 when `open` and `write` succeed; minus the error code of `open` when
`open` fails and the warning is not logged or logging leaves `errno` alone;
minus the error code of `write` when `write` fails and `close` leaves `errno`
alone. -/
theorem write_int_ret_errno_kept (path : String) (value : Int) (o : Outcome) (w : World) :
    (0 ≤ o.open_res.ret → o.write_res.ret ≠ -1 → (write_int path value o w).1 = 0) ∧
    (∀ e, o.open_res.ret < 0 → o.open_res.err = some e →
      (w.already_warned ≠ 0 ∨ o.log_err = none) → (write_int path value o w).1 = -e) ∧
    (∀ e, 0 ≤ o.open_res.ret → o.write_res.ret = -1 → o.write_res.err = some e →
      o.close_res.err = none → (write_int path value o w).1 = -e) := by
  unfold write_int sys_open sys_write sys_close LOGE World.emit World.set_errno
  refine ⟨fun h1 h2 => ?_, fun e h1 h2 h3 => ?_, fun e h1 h2 h3 h4 => ?_⟩
  · simp [h1, h2]
  · have h0 : ¬ 0 ≤ o.open_res.ret := by omega
    rcases h3 with h3 | h3
    · simp [h0, h2, h3]
    · by_cases h5 : w.already_warned = 0 <;> simp [h0, h2, h3, h5]
  · simp [h1, h2, h3, h4]

/-- C4: `write_int` reads `errno` only after `close` (and, on the open-failure
path, after the warning has been logged).  With the open succeeding, the write
failing with error 22 and the close failing with error 5, it returns -5 and not
-22; with the open failing with error 13 and the logging leaving 2 in `errno`,
the first failing call returns -2 and not -13.  Both outcomes are ones the
system can give. -/
theorem write_int_reports_later_errno :
    Outcome.wf ⟨⟨3, none⟩, ⟨-1, some 22⟩, ⟨-1, some 5⟩, none⟩ ∧
    (write_int LCD_FILE 255 ⟨⟨3, none⟩, ⟨-1, some 22⟩, ⟨-1, some 5⟩, none⟩ World.init).1
      = -5 ∧
    Outcome.wf ⟨⟨-1, some 13⟩, ⟨0, none⟩, ⟨0, none⟩, some 2⟩ ∧
    (write_int LCD_FILE 255 ⟨⟨-1, some 13⟩, ⟨0, none⟩, ⟨0, none⟩, some 2⟩ World.init).1
      = -2 := by
  refine ⟨⟨Or.inr ⟨by decide, rfl⟩, Or.inl ⟨rfl, 22, rfl, by decide⟩,
      Or.inl ⟨rfl, 5, rfl, by decide⟩, fun e h => by simp at h⟩, by decide,
    ⟨Or.inl ⟨rfl, 13, rfl, by decide⟩, Or.inr ⟨by decide, rfl⟩,
      Or.inr ⟨rfl, rfl⟩, fun e h => ?_⟩, by decide⟩
  simp only [Option.some.injEq] at h
  omega

/-- C10: over every sequence of `write_int` calls from the initial state, the
call that follows a prefix `pre` emits the open-failure warning exactly when its
own open fails and no open of `pre` has failed; the warnings emitted in total are
at most one; and the flag after a sequence is 1 exactly when some open in it has
failed, so it does not go back to 0 as the sequence is extended. -/
theorem write_int_warns_once (pre : List Call) (c : Call) :
    warnings (write_ints (pre ++ [c]) World.init).trace =
      warnings (write_ints pre World.init).trace ++
        (if c.open_fails ∧ pre.all (fun d => !d.open_fails) then [c.path] else []) ∧
    (warnings (write_ints (pre ++ [c]) World.init).trace).length ≤ 1 ∧
    (write_ints pre World.init).already_warned
      = (if pre.any Call.open_fails then 1 else 0) ∧
    (write_ints (pre ++ [c]) World.init).already_warned
      = (if pre.any Call.open_fails ∨ c.open_fails then 1 else 0) := by
  have hp := write_ints_state pre
  have hpc := write_ints_state (pre ++ [c])
  refine ⟨?_, ?_, hp.1, ?_⟩
  · rw [write_ints_append]
    simp only [write_ints]
    rw [write_int_trace, warnings_append, warnings_write_int_events, hp.1]
    congr 1
    by_cases hany : pre.any Call.open_fails = true
    · have hall : ¬ (pre.all (fun d => !d.open_fails) = true) := by
        rw [List.any_eq_true] at hany
        obtain ⟨x, hx, hx2⟩ := hany
        intro hall
        rw [List.all_eq_true] at hall
        have := hall x hx
        simp [hx2] at this
      simp [hany, hall]
    · have hall : pre.all (fun d => !d.open_fails) = true := by
        rw [List.all_eq_true]
        intro x hx
        cases hx2 : x.open_fails with
        | false => rfl
        | true => exact absurd (List.any_eq_true.mpr ⟨x, hx, hx2⟩) hany
      by_cases hc : c.outcome.open_res.ret < 0
      · have hcf : c.open_fails = true := by simp [Call.open_fails, hc]
        simp [hany, hall, hc, hcf]
      · have hcf : c.open_fails = false := by simp [Call.open_fails, hc]
        simp [hany, hc, hcf]
  · rw [hpc.2]
    cases (List.find? Call.open_fails (pre ++ [c])) <;> simp
  · rw [hpc.1]
    simp [List.any_append]

end Lights
